import Mathlib

/-!
Verification development for the watermark compositing engine of
`image_workflow.py` (function `add_watermark`, lines 150-297).

The engine is embedded shallowly:

* Python `int` arithmetic is `ℤ`; Python `float` expressions that the code
  builds from integer inputs (`x * 0.1`, `fs / 40`, `base * scale / 100`) are
  modelled exactly in `ℚ`, with Python's `int(...)` conversion as truncation
  toward zero (`pyInt`).
* Python `//` and `%` are `Int.fdiv` / `Int.fmod` (floor division, remainder
  with the divisor's sign), which is exactly Python's semantics.
* `range(start, stop, step)` is `pyRangeList`; calling `range` with `step = 0`
  raises `ValueError` in Python, so the fallible wrapper `pyRangeE` returns
  `Except.error ()` there.
* Pixel buffers are functions `ℤ × ℤ → Pixel`.  The glyph rasterizer, the
  font files on disk, and the trigonometric bounding box of `Image.rotate`
  are external to the repository (Pillow), so they enter the model as
  parameters: a coverage function `cov`, a font-availability predicate
  `fontLoads`, the rotated stamp's dimensions `rotW`/`rotH`, and the rotation
  resampling map `rotSample`.  The alpha-over blend of
  `Image.alpha_composite` follows the spec's Compositor contract (§4.4).
* Exceptions are `Except`; the `try/except` wrapper of `add_watermark`
  (lines 154/295-297) becomes a function returning a success flag and an
  optional output image.
-/

namespace ImageWorkflow

/-- Python `int(...)` on a rational value: truncation toward zero. -/
def pyInt (q : ℚ) : ℤ := if 0 ≤ q then ⌊q⌋ else ⌈q⌉

/-- Number of elements of Python `range(start, stop, step)` (for `step ≠ 0`):
`max 0 ⌈(stop - start) / step⌉`. -/
def pyRangeLen (start stop step : ℤ) : ℕ :=
  if 0 < step then ((stop - start + step - 1).fdiv step).toNat
  else ((stop - start + step + 1).fdiv step).toNat

/-- The list of values of Python `range(start, stop, step)` (for `step ≠ 0`). -/
def pyRangeList (start stop step : ℤ) : List ℤ :=
  (List.range (pyRangeLen start stop step)).map (fun i => start + step * i)

/-- Python `range(start, stop, step)`; `range` raises `ValueError` when
`step = 0`. -/
def pyRangeE (start stop step : ℤ) : Except Unit (List ℤ) :=
  if step = 0 then Except.error () else Except.ok (pyRangeList start stop step)

/-- An RGBA pixel.  Channel values live in 0..255 in the running code. -/
structure Pixel where
  r : ℕ
  g : ℕ
  b : ℕ
  a : ℕ
deriving DecidableEq

/-- An RGB triple. -/
abbrev RGB := ℕ × ℕ × ℕ

/-- An RGBA pixel buffer, addressed by integer coordinates. -/
abbrev Img := ℤ × ℤ → Pixel

/-- An RGB pixel buffer (the decoded input and the encoded output). -/
abbrev RGBImage := ℤ × ℤ → RGB

/-- `img.convert("RGBA")` on an RGB input (line 156): every pixel becomes
fully opaque. -/
def toRGBA (cv : RGBImage) : Img :=
  fun c => ⟨(cv c).1, (cv c).2.1, (cv c).2.2, 255⟩

/-- `convert("RGB")` (line 289): drop the alpha channel. -/
def toRGB (p : Pixel) : RGB := (p.r, p.g, p.b)

/-- Alpha-over blend of one source pixel onto one destination pixel, the
operation `Image.alpha_composite` applies per pixel (line 286).  The blend
lives in Pillow, outside this repository; the formula is the spec's
Compositor contract (§4.4): `out = src*srcA + dst*(1-srcA)` with alpha
accumulating likewise, here over a 0..255 alpha scale with truncating
integer division.  For a fully transparent source the division is exact, so
the rounding convention is immaterial to the theorems below. -/
def overPixel (src dst : Pixel) : Pixel :=
  let outa255 := src.a * 255 + dst.a * (255 - src.a)
  if outa255 = 0 then ⟨0, 0, 0, 0⟩
  else
    ⟨(src.r * src.a * 255 + dst.r * dst.a * (255 - src.a)) / outa255,
     (src.g * src.a * 255 + dst.g * dst.a * (255 - src.a)) / outa255,
     (src.b * src.a * 255 + dst.b * dst.a * (255 - src.a)) / outa255,
     outa255 / 255⟩

/-- `Image.alpha_composite(img, overlay)` followed by `convert("RGB")`
(lines 286-289), pointwise. -/
def compositeRGB (cv : RGBImage) (ov : Img) : RGBImage :=
  fun c => toRGB (overPixel (ov c) (toRGBA cv c))

/-- Blend a color with alpha `a0` into a destination pixel under a glyph
coverage value `k` (0 = not covered, 255 = fully covered), as `ImageDraw`
does when rendering antialiased text with an RGBA fill. -/
def blendCov (fc : RGB) (a0 : ℕ) (k : ℕ) (d : Pixel) : Pixel :=
  ⟨(fc.1 * k + d.r * (255 - k)) / 255,
   (fc.2.1 * k + d.g * (255 - k)) / 255,
   (fc.2.2 * k + d.b * (255 - k)) / 255,
   (a0 * k + d.a * (255 - k)) / 255⟩

/-- `draw.text(pos, text, font=font, fill=(fc, a0))` (lines 220, 241, 271,
283): blend the fill color into the base image under the glyph coverage
`cov`, translated so the text's origin lands at `pos`. -/
def drawText (base : Img) (cov : ℤ × ℤ → ℕ) (pos : ℤ × ℤ) (fc : RGB) (a0 : ℕ) : Img :=
  fun c => blendCov fc a0 (cov (c.1 - pos.1, c.2 - pos.2)) (base c)

/-- One pixel of an RGBA paste with the stamp itself as mask
(`base.paste(stamp, pos, stamp)`): the stamp's alpha band is the mask. -/
def blendMask (s d : Pixel) : Pixel :=
  ⟨(s.r * s.a + d.r * (255 - s.a)) / 255,
   (s.g * s.a + d.g * (255 - s.a)) / 255,
   (s.b * s.a + d.b * (255 - s.a)) / 255,
   (s.a * s.a + d.a * (255 - s.a)) / 255⟩

/-- `base.paste(stamp, pos, stamp)` (lines 245, 258, 268, 280) for a stamp of
size `sw × sh`: pixels of the base outside the pasted rectangle are left
untouched, which is exactly Pillow's clipping behavior for positions
partially or fully outside the base image. -/
def pasteMask (base stamp : Img) (sw sh : ℤ) (pos : ℤ × ℤ) : Img :=
  fun c =>
    if pos.1 ≤ c.1 ∧ c.1 < pos.1 + sw ∧ pos.2 ≤ c.2 ∧ c.2 < pos.2 + sh then
      blendMask (stamp (c.1 - pos.1, c.2 - pos.2)) (base c)
    else base c

/-- `txt_img.rotate(angle, expand=1)` (line 247): each output pixel samples
one input pixel through the inverse rotation, or is the transparent fill
color where the rotated quadrilateral does not cover the output rectangle.
The geometric sampling map is Pillow's (external), so it is a parameter. -/
def rotateImage (img : Img) (sample : ℤ × ℤ → Option (ℤ × ℤ)) : Img :=
  fun c =>
    match sample c with
    | some q => img q
    | none => ⟨0, 0, 0, 0⟩

/-- The ordered font trial list (lines 173-180). -/
def font_options : List String :=
  ["arial.ttf", "Arial.ttf", "DejaVuSans.ttf", "Verdana.ttf", "times.ttf",
   "Times New Roman.ttf"]

/-- The font object the renderer ends up with: a loaded TrueType face at the
requested size, or the built-in fixed-size bitmap face. -/
inductive FontChoice where
  | truetype (name : String) (size : ℤ)
  | builtinDefault
deriving DecidableEq

/-- Lines 182-191: try each candidate font file in order, keeping the first
that loads (`IOError` just moves to the next candidate); if none loads, fall
back to `ImageFont.load_default()`.  `avail` is the external fact of which
font files the platform can open. -/
def loadFont (avail : String → Bool) (size : ℤ) : FontChoice :=
  match font_options.find? avail with
  | some n => FontChoice.truetype n size
  | none => FontChoice.builtinDefault

/-- `DEFAULT_WATERMARK_FONT_SIZE` (line 32), the argparse default for
`--watermark-font-size` (line 471). -/
def DEFAULT_WATERMARK_FONT_SIZE : ℤ := 36

/-- The absolute font size `main` passes to `add_watermark`: the operator's
value when supplied, else the argparse default of 36 (lines 471, 513).
(The `font_size=40` keyword default on `add_watermark` itself, line 151, is
shadowed on this path because `main` always passes the parsed value.) -/
def cliFontSize (supplied : Option ℤ) : ℤ :=
  supplied.getD DEFAULT_WATERMARK_FONT_SIZE

/-- Lines 163-166: when a percentage scale factor is supplied, the font size
becomes `int(min(width, height) * scale_factor / 100)`, overriding any
absolute size; otherwise the absolute size is used. -/
def resolveFontSize (scale_factor : Option ℚ) (font_size w h : ℤ) : ℤ :=
  match scale_factor with
  | some p => pyInt ((min w h : ℚ) * p / 100)
  | none => font_size

/-- All inputs of one `add_watermark` call, with the external collaborators
(measured text size, glyph coverage, font availability, rotated-stamp
geometry) as explicit data. -/
structure WatermarkArgs where
  canvasW : ℤ
  canvasH : ℤ
  /-- measured width of the rendered text (lines 201-208, external rasterizer) -/
  text_width : ℤ
  /-- measured height of the rendered text -/
  text_height : ℤ
  position : Option (ℤ × ℤ)
  opacity : ℚ
  font_size : ℤ
  /-- the `repeat` keyword argument (renamed: `repeat` is reserved in Lean) -/
  repeatWm : Bool
  spacing : ℤ
  angle : ℤ
  font_color : RGB
  scale_factor : Option ℚ
  /-- which font files `ImageFont.truetype` can open (external) -/
  fontLoads : String → Bool
  /-- glyph coverage of the text rendered at its native placement (external) -/
  cov : ℤ × ℤ → ℕ
  /-- width of the rotated, padded stamp `txt_img` after line 247 (external) -/
  rotW : ℤ
  /-- height of the rotated, padded stamp after line 247 (external) -/
  rotH : ℤ
  /-- inverse-rotation sampling map of line 247 (external) -/
  rotSample : ℤ × ℤ → Option (ℤ × ℤ)

/-- The font size after line 166. -/
def resolvedFontSize (a : WatermarkArgs) : ℤ :=
  resolveFontSize a.scale_factor a.font_size a.canvasW a.canvasH

/-- Whether the code falls back to the built-in face (line 189: no candidate
font loaded).  The code detects this later by object identity
(`font is ImageFont.load_default()`, lines 214/244/266/278); the model uses
the intended meaning of that check. -/
def usesDefaultFont (a : WatermarkArgs) : Bool :=
  (font_options.find? a.fontLoads).isNone

/-- Line 193: the manual upscale path is taken only for the default font with
a requested size above the built-in face's 40px cap (`scale_ratio > 1`). -/
def defaultScaled (a : WatermarkArgs) : Bool :=
  usesDefaultFont a && decide (40 < resolvedFontSize a)

/-- `scale_ratio = font_size / 40` (line 194). -/
def defScale (a : WatermarkArgs) : ℚ := (resolvedFontSize a : ℚ) / 40

/-- The `font_size` variable after lines 189-195: clamped to 40 when the
default font is used with a larger requested size. -/
def effFontSize (a : WatermarkArgs) : ℤ :=
  if defaultScaled a then 40 else resolvedFontSize a

/-- `temp_img` dimensions (lines 216-218):
`(int(text_width * scale_ratio), int(text_height * scale_ratio))`. -/
def tempDims (a : WatermarkArgs) : ℤ × ℤ :=
  (pyInt ((a.text_width : ℚ) * defScale a), pyInt ((a.text_height : ℚ) * defScale a))

/-- The `text_width` variable after lines 213-224: reassigned to the enlarged
buffer's width on the manual-upscale path. -/
def effTextW (a : WatermarkArgs) : ℤ :=
  if defaultScaled a then (tempDims a).1 else a.text_width

/-- The `text_height` variable after lines 213-224. -/
def effTextH (a : WatermarkArgs) : ℤ :=
  if defaultScaled a then (tempDims a).2 else a.text_height

/-- `int(255 * opacity)`, the alpha of `text_color` (line 211). -/
def textAlpha (a : WatermarkArgs) : ℕ := (pyInt (255 * a.opacity)).toNat

/-- Lines 226-228: with `repeat` and a supplied scale factor, the spacing is
rescaled to `int(spacing * (font_size / 40))`; otherwise it is untouched.
`fs` is the `font_size` variable in scope at line 228 (`effFontSize`). -/
def adjSpacing (rep : Bool) (sf : Option ℚ) (sp fs : ℤ) : ℤ :=
  if rep && sf.isSome then pyInt ((sp : ℚ) * ((fs : ℚ) / 40)) else sp

/-- The `spacing` variable after line 228. -/
def usedSpacing (a : WatermarkArgs) : ℤ :=
  adjSpacing a.repeatWm a.scale_factor a.spacing (effFontSize a)

/-- `temp_img` (lines 216-220): text drawn at the native size at `(0, 0)` of
a transparent buffer of the enlarged `tempDims` size.  The code's comment
announces "creating a larger canvas and resizing", but no resize happens. -/
def tempImg (a : WatermarkArgs) : Img :=
  drawText (fun _ => ⟨0, 0, 0, 0⟩) a.cov (0, 0) a.font_color (textAlpha a)

/-- `padding = int(max(text_width, text_height) * 0.1)` (line 234), on the
text dimensions in scope there (after lines 213-224).  `0.1` is modelled as
the exact rational 1/10; `int(x * 0.1)` and `⌊x / 10⌋` agree for every
integer `x` of realistic image magnitude. -/
def rotPad (a : WatermarkArgs) : ℤ :=
  pyInt ((max (effTextW a) (effTextH a) : ℚ) / 10)

/-- Dimensions of `txt_img` before rotation (lines 235-237):
the text box padded by `rotPad` on each side. -/
def preRotDims (a : WatermarkArgs) : ℤ × ℤ :=
  (effTextW a + 2 * rotPad a, effTextH a + 2 * rotPad a)

/-- `txt_img` before rotation (lines 235-245): transparent white canvas, text
drawn at `(padding, padding)`, and on the manual-upscale path `temp_img`
pasted over it at the same offset. -/
def txtImgPre (a : WatermarkArgs) : Img :=
  let d0 := drawText (fun _ => ⟨255, 255, 255, 0⟩) a.cov (rotPad a, rotPad a)
    a.font_color (textAlpha a)
  if defaultScaled a then
    pasteMask d0 (tempImg a) (tempDims a).1 (tempDims a).2 (rotPad a, rotPad a)
  else d0

/-- `txt_img` after `rotate(angle, expand=1)` (line 247). -/
def txtImg (a : WatermarkArgs) : Img := rotateImage (txtImgPre a) a.rotSample

/-- The anchor positions of the non-rotated repeating grid, lines 260-264:

    for y in range(-text_height, img.height, spacing + text_height):
        for x in range(-text_width, img.width, spacing + text_width):
            offset_x = x + ((y // (spacing + text_height)) % 2)
                           * ((spacing + text_width) // 2)

The inner `range` is loop-invariant, so it is hoisted here; it is evaluated
(and can raise `ValueError` on a zero step) only when at least one row
exists, matching Python's evaluation order. -/
def planRepeat0 (cw ch tw th sp : ℤ) : Except Unit (List (ℤ × ℤ)) :=
  match pyRangeE (-th) ch (sp + th) with
  | Except.error e => Except.error e
  | Except.ok ys =>
    match ys with
    | [] => Except.ok []
    | _ =>
      match pyRangeE (-tw) cw (sp + tw) with
      | Except.error e => Except.error e
      | Except.ok xs =>
        Except.ok ((ys.map (fun y => xs.map (fun x =>
          (x + ((y.fdiv (sp + th)).fmod 2) * ((sp + tw).fdiv 2), y)))).flatten)

/-- The anchor positions of the rotated repeating pattern, lines 249-257:

    pattern_width = txt_img.width + spacing
    pattern_height = txt_img.height + spacing
    for y in range(-pattern_height, img.height + pattern_height, pattern_height):
        for x in range(-pattern_width, img.width + pattern_width, pattern_width):
            offset_x = x - (y // pattern_height % 2) * (pattern_width // 2)

`rw`/`rh` are the rotated stamp's dimensions (`txt_img.width/height` after
line 247). -/
def planRepeatRot (cw ch rw rh sp : ℤ) : Except Unit (List (ℤ × ℤ)) :=
  match pyRangeE (-(rh + sp)) (ch + (rh + sp)) (rh + sp) with
  | Except.error e => Except.error e
  | Except.ok ys =>
    match ys with
    | [] => Except.ok []
    | _ =>
      match pyRangeE (-(rw + sp)) (cw + (rw + sp)) (rw + sp) with
      | Except.error e => Except.error e
      | Except.ok xs =>
        Except.ok ((ys.map (fun y => xs.map (fun x =>
          (x - ((y.fdiv (rh + sp)).fmod 2) * ((rw + sp).fdiv 2), y)))).flatten)

/-- Whether the drawing uses the rotated whole-stamp path (lines 230-258):
only in repeat mode with a nonzero angle. -/
def usesRotatedStamp (a : WatermarkArgs) : Bool :=
  a.repeatWm && !(a.angle == 0)

/-- The placement plan of one call: the anchor list the drawing loops visit,
or the `ValueError` escaping from a zero-step `range`.  Single (non-repeat)
mode, lines 272-283: one anchor, the explicit position or the bottom-right
default `(width - text_width - 20, height - text_height - 20)`. -/
def planOf (a : WatermarkArgs) : Except Unit (List (ℤ × ℤ)) :=
  if a.repeatWm then
    if a.angle ≠ 0 then
      planRepeatRot a.canvasW a.canvasH a.rotW a.rotH (usedSpacing a)
    else
      planRepeat0 a.canvasW a.canvasH (effTextW a) (effTextH a) (usedSpacing a)
  else
    Except.ok [a.position.getD
      (a.canvasW - effTextW a - 20, a.canvasH - effTextH a - 20)]

/-- The fresh transparent overlay of line 159: `(255, 255, 255, 0)`. -/
def overlayInit : Img := fun _ => ⟨255, 255, 255, 0⟩

/-- The transparent overlay (line 159) after all drawing of the branch taken,
folded over the placement plan. -/
def renderOverlay (a : WatermarkArgs) (plan : List (ℤ × ℤ)) : Img :=
  if a.repeatWm && !(a.angle == 0) then
    plan.foldl (fun ov p => pasteMask ov (txtImg a) a.rotW a.rotH p) overlayInit
  else if defaultScaled a then
    plan.foldl (fun ov p => pasteMask ov (tempImg a) (effTextW a) (effTextH a) p)
      overlayInit
  else
    plan.foldl (fun ov p => drawText ov a.cov p a.font_color (textAlpha a))
      overlayInit

/-- The output RGB image (lines 286-289). -/
def finalImage (a : WatermarkArgs) (plan : List (ℤ × ℤ)) (cv : RGBImage) : RGBImage :=
  compositeRGB cv (renderOverlay a plan)

/-- The whole `add_watermark` call (lines 150-297): the `try/except` wrapper
turns any exception into a `False` outcome, and the output file is written
only at line 292, after every placement, so failure yields no output image
at all. -/
def add_watermark (a : WatermarkArgs) (cv : RGBImage) : Bool × Option RGBImage :=
  match planOf a with
  | Except.ok plan => (true, some (finalImage a plan cv))
  | Except.error _ => (false, none)

/-- The non-rotated repeating grid in the words of the spec (§4.3) and of the
claim: `y` from `-stampH` up to `canvasH` stepping `rowStep = spacing +
stampH`; each row is an arithmetic progression with step `columnStep =
spacing + stampW`; a row whose index `r = floor(y / rowStep)` is even starts
at `x = -stampW`, an odd row is shifted right by `(spacing + stampW) / 2`
(integer division). -/
def specGrid (cw ch tw th sp : ℤ) : List (ℤ × ℤ) :=
  ((pyRangeList (-th) ch (sp + th)).map (fun y =>
    (List.range (pyRangeLen (-tw) cw (sp + tw))).map (fun i =>
      ((if Even (y.fdiv (sp + th)) then -tw else -tw + (sp + tw) / 2)
          + (sp + tw) * (i : ℤ), y)))).flatten

/-- The rotated repeating grid the code actually produces, stated in the same
style: with `pw = W' + spacing` and `ph = H' + spacing`, `y` runs from `-ph`
up to (but excluding) `canvasH + ph` stepping `ph`; each row is an arithmetic
progression with step `pw`; a row with even `r = floor(y / ph)` starts at
`x = -pw`, and an odd row is shifted LEFT by `pw / 2`. -/
def specGridRot (cw ch rw rh sp : ℤ) : List (ℤ × ℤ) :=
  ((pyRangeList (-(rh + sp)) (ch + (rh + sp)) (rh + sp)).map (fun y =>
    (List.range (pyRangeLen (-(rw + sp)) (cw + (rw + sp)) (rw + sp))).map (fun i =>
      ((if Even (y.fdiv (rh + sp)) then -(rw + sp) else -(rw + sp) - (rw + sp) / 2)
          + (rw + sp) * (i : ℤ), y)))).flatten

/-- The rotated repeating grid as claim C2 and spec §4.3 word it: steps
`pw = W' + spacing`, `ph = H' + spacing`, `y` from `-H'` to `canvasH + H'`,
`x` from `-W'` to `canvasW + W'`, and "the same even/odd row stagger rule as
[the non-rotated case]": odd rows shifted RIGHT by half the horizontal step,
using `W'`. -/
def specGridRotClaimed (cw ch rw rh sp : ℤ) : List (ℤ × ℤ) :=
  ((pyRangeList (-rh) (ch + rh) (rh + sp)).map (fun y =>
    (List.range (pyRangeLen (-rw) (cw + rw) (rw + sp))).map (fun i =>
      ((if Even (y.fdiv (rh + sp)) then -rw else -rw + (rw + sp) / 2)
          + (rw + sp) * (i : ℤ), y)))).flatten

/-- Modelled from the spec (§4.2): "scaling to the requested size is
approximated by rendering at the face's native size into a buffer, then the
Compositor must treat this stamp as needing an external scale-up by
`requestedSize / nativeSize`".  The scale-up itself is absent from the
source; this is the claimed coverage of the upscaled stamp under
nearest-neighbour sampling of the native rendering. -/
def specUpscaledAlpha (cov : ℤ × ℤ → ℕ) (ratio : ℚ) (c : ℤ × ℤ) : ℕ :=
  cov (pyInt ((c.1 : ℚ) / ratio), pyInt ((c.2 : ℚ) / ratio))

/-- Full 10×10 glyph coverage: the native rendering of the text fills the
measured 10×10 text box. -/
def fullCov10 : ℤ × ℤ → ℕ :=
  fun q => if 0 ≤ q.1 ∧ q.1 < 10 ∧ 0 ≤ q.2 ∧ q.2 < 10 then 255 else 0

/-- A call in which no candidate font loads and the requested size 80 is
twice the built-in face's 40px cap, with a 10×10 measured text box. -/
def defaultScaledCall : WatermarkArgs :=
  ⟨40, 40, 10, 10, none, 1, 80, false, 0, 0, (255, 255, 255), none,
   fun _ => false, fullCov10, 0, 0, fun _ => none⟩

/-! ### Helper lemmas -/

theorem pyInt_eq_floor (q : ℚ) (h : 0 ≤ q) : pyInt q = ⌊q⌋ := if_pos h

theorem pyInt_nonneg (q : ℚ) (h : 0 ≤ q) : 0 ≤ pyInt q := by
  rw [pyInt_eq_floor q h]
  exact Int.le_floor.mpr (by exact_mod_cast h)

theorem le_pyInt (z : ℤ) (q : ℚ) (hq : 0 ≤ q) (h : (z : ℚ) ≤ q) : z ≤ pyInt q := by
  rw [pyInt_eq_floor q hq]
  exact Int.le_floor.mpr h

/-- Evaluation of the non-rotated plan when neither step is zero. -/
theorem planRepeat0_eq (cw ch tw th sp : ℤ) (h1 : sp + th ≠ 0) (h2 : sp + tw ≠ 0) :
    planRepeat0 cw ch tw th sp =
      Except.ok (((pyRangeList (-th) ch (sp + th)).map (fun y =>
        (pyRangeList (-tw) cw (sp + tw)).map (fun x =>
          (x + ((y.fdiv (sp + th)).fmod 2) * ((sp + tw).fdiv 2), y)))).flatten) := by
  rw [planRepeat0, pyRangeE, pyRangeE, if_neg h1, if_neg h2]
  cases pyRangeList (-th) ch (sp + th) with
  | nil => rfl
  | cons a t => rfl

/-- Evaluation of the rotated plan when neither step is zero. -/
theorem planRepeatRot_eq (cw ch rw' rh' sp : ℤ) (h1 : rh' + sp ≠ 0)
    (h2 : rw' + sp ≠ 0) :
    planRepeatRot cw ch rw' rh' sp =
      Except.ok (((pyRangeList (-(rh' + sp)) (ch + (rh' + sp)) (rh' + sp)).map
        (fun y => (pyRangeList (-(rw' + sp)) (cw + (rw' + sp)) (rw' + sp)).map
          (fun x =>
            (x - ((y.fdiv (rh' + sp)).fmod 2) * ((rw' + sp).fdiv 2), y)))).flatten) := by
  rw [planRepeatRot, pyRangeE, pyRangeE, if_neg h1, if_neg h2]
  cases pyRangeList (-(rh' + sp)) (ch + (rh' + sp)) (rh' + sp) with
  | nil => rfl
  | cons a t => rfl

/-- One row of the non-rotated plan is the arithmetic progression the claim
describes: the code's per-anchor offset `x + (r % 2) * (columnStep // 2)`
collapses to a row start of `-tw` for even `r` and `-tw + columnStep / 2`
for odd `r`. -/
theorem planRow_eq (cw tw sp y r : ℤ) :
    (pyRangeList (-tw) cw (sp + tw)).map (fun x =>
      (x + r.fmod 2 * ((sp + tw).fdiv 2), y)) =
    (List.range (pyRangeLen (-tw) cw (sp + tw))).map (fun i =>
      ((if Even r then -tw else -tw + (sp + tw) / 2) + (sp + tw) * (i : ℤ), y)) := by
  rw [pyRangeList, List.map_map]
  apply List.map_congr_left
  intro i _
  simp only [Function.comp_apply]
  rw [Int.fmod_eq_emod r (by norm_num), Int.fdiv_eq_ediv (sp + tw) (by norm_num)]
  rcases Int.emod_two_eq r with h | h
  · rw [h, if_pos (Int.even_iff.mpr h)]
    ring_nf
  · rw [h, if_neg (Int.not_even_iff.mpr h)]
    ring_nf

/-- One row of the rotated plan: the code's `x - (r % 2) * (pw // 2)` is a
row start of `-pw` for even `r`, shifted LEFT by `pw / 2` for odd `r`. -/
theorem planRowRot_eq (cw rw' sp y r : ℤ) :
    (pyRangeList (-(rw' + sp)) (cw + (rw' + sp)) (rw' + sp)).map (fun x =>
      (x - r.fmod 2 * ((rw' + sp).fdiv 2), y)) =
    (List.range (pyRangeLen (-(rw' + sp)) (cw + (rw' + sp)) (rw' + sp))).map
      (fun i =>
        ((if Even r then -(rw' + sp) else -(rw' + sp) - (rw' + sp) / 2)
            + (rw' + sp) * (i : ℤ), y)) := by
  rw [pyRangeList, List.map_map]
  apply List.map_congr_left
  intro i _
  simp only [Function.comp_apply]
  rw [Int.fmod_eq_emod r (by norm_num), Int.fdiv_eq_ediv (rw' + sp) (by norm_num)]
  rcases Int.emod_two_eq r with h | h
  · rw [h, if_pos (Int.even_iff.mpr h)]
    ring_nf
  · rw [h, if_neg (Int.not_even_iff.mpr h)]
    ring_nf

/-! ### C1: the non-rotated repeating grid -/

/-- C1, counterexample: the claim quantifies over every spacing `s`, but at
`s = -stampH` the row step `s + stampH` is zero, Python's `range` raises
`ValueError`, and `add_watermark` produces no placement plan at all — so no
grid of the claimed shape exists at this input. -/
theorem planRepeat0_zero_step_no_plan :
    planRepeat0 2 2 1 1 (-1) = Except.error () ∧
    ¬∃ L, planRepeat0 2 2 1 1 (-1) = Except.ok L := by
  refine ⟨rfl, ?_⟩
  rintro ⟨L, hL⟩
  have h : (Except.error () : Except Unit (List (ℤ × ℤ))) = Except.ok L := hL
  exact Except.noConfusion h

/-- C1, amended: in repeat mode with `angle == 0`, positive canvas and stamp
dimensions and NONNEGATIVE spacing `s` (the restriction the zero-step
counterexample forces), the placement plan is exactly the staggered grid the
claim describes: `y` from `-stampH` up to `canvasH` stepping `rowStep = s +
stampH`; each row an arithmetic progression of step `columnStep = s + stampW`
(so adjacent anchors on a row differ by exactly `s + stampW`); rows with even
`r = floor(y / rowStep)` starting at `x = -stampW` and odd rows shifted right
by `(s + stampW) / 2` (integer division). -/
theorem repeat_grid_plan (cw ch tw th sp : ℤ) (hcw : 0 < cw) (hch : 0 < ch)
    (htw : 0 < tw) (hth : 0 < th) (hsp : 0 ≤ sp) :
    planRepeat0 cw ch tw th sp = Except.ok (specGrid cw ch tw th sp) := by
  rw [planRepeat0_eq cw ch tw th sp (by omega) (by omega), specGrid]
  congr 1
  congr 1
  apply List.map_congr_left
  intro y _
  exact planRow_eq cw tw sp y (y.fdiv (sp + th))

/-- C1, witness: the amended theorem applied at a 5×4 canvas, 2×1 stamp and
spacing 2. -/
theorem repeat_grid_plan_witness :
    (0 : ℤ) < 5 ∧ (0 : ℤ) < 4 ∧ (0 : ℤ) < 2 ∧ (0 : ℤ) < 1 ∧ (0 : ℤ) ≤ 2 ∧
    planRepeat0 5 4 2 1 2 = Except.ok (specGrid 5 4 2 1 2) :=
  ⟨by norm_num, by norm_num, by norm_num, by norm_num, by norm_num,
   repeat_grid_plan 5 4 2 1 2 (by norm_num) (by norm_num) (by norm_num)
     (by norm_num) (by norm_num)⟩

/-! ### C2: the rotated repeating pattern -/

/-- C2, counterexample: at a 20×20 canvas, rotated stamp 10×10 and spacing
10, the code's plan and the grid the claim describes (y from `-H'` to
`canvasH + H'`, x from `-W'`, odd rows shifted right) are different lists:
the code tiles from `-(H'+spacing) = -20` (not `-H' = -10`) and shifts odd
rows LEFT, so its first anchor is `(-30, -20)` while the claim's grid is
`[(0, -10), (20, -10), (-10, 10), (10, 10)]`. -/
theorem rotated_plan_counterexample :
    planRepeatRot 20 20 10 10 10 = Except.ok
      [(-30, -20), (-10, -20), (10, -20), (-20, 0), (0, 0), (20, 0),
       (-30, 20), (-10, 20), (10, 20)] ∧
    specGridRotClaimed 20 20 10 10 10 =
      [(0, -10), (20, -10), (-10, 10), (10, 10)] ∧
    ([((-30 : ℤ), (-20 : ℤ)), (-10, -20), (10, -20), (-20, 0), (0, 0), (20, 0),
       (-30, 20), (-10, 20), (10, 20)] ≠
      [((0 : ℤ), (-10 : ℤ)), (20, -10), (-10, 10), (10, 10)]) := by
  refine ⟨rfl, rfl, ?_⟩
  decide

/-- C2, amended: with positive rotated-stamp dimensions and nonnegative
spacing, and with `pw = W' + spacing`, `ph = H' + spacing`, the rotated plan
tiles `y` from `-ph` up to `canvasH + ph` stepping `ph` and each row is an
arithmetic progression of step `pw`, where rows with even
`r = floor(y / ph)` start at `x = -pw` and odd rows are shifted LEFT by
`pw / 2` (integer division) — not right, and not from `-H'`/`-W'`, as the
claim stated. -/
theorem rotated_grid_plan (cw ch rw' rh' sp : ℤ) (hcw : 0 < cw)
    (hch : 0 < ch) (hrw : 0 < rw') (hrh : 0 < rh') (hsp : 0 ≤ sp) :
    planRepeatRot cw ch rw' rh' sp = Except.ok (specGridRot cw ch rw' rh' sp) := by
  rw [planRepeatRot_eq cw ch rw' rh' sp (by omega) (by omega), specGridRot]
  congr 1
  congr 1
  apply List.map_congr_left
  intro y _
  exact planRowRot_eq cw rw' sp y (y.fdiv (rh' + sp))

/-- C2, witness: the amended theorem applied at a 20×20 canvas, 10×10
rotated stamp and spacing 10. -/
theorem rotated_grid_plan_witness :
    (0 : ℤ) < 20 ∧ (0 : ℤ) < 20 ∧ (0 : ℤ) < 10 ∧ (0 : ℤ) < 10 ∧ (0 : ℤ) ≤ 10 ∧
    planRepeatRot 20 20 10 10 10 = Except.ok (specGridRot 20 20 10 10 10) :=
  ⟨by norm_num, by norm_num, by norm_num, by norm_num, by norm_num,
   rotated_grid_plan 20 20 10 10 10 (by norm_num) (by norm_num) (by norm_num)
     (by norm_num) (by norm_num)⟩

/-! ### C3: single (non-repeat) mode -/

/-- C3: in single mode the plan is one anchor — the explicit position when
given, else `(canvasW - stampW - 20, canvasH - stampH - 20)` — and the
rotated-stamp path is not taken. -/
theorem single_mode_anchor (a : WatermarkArgs) (h : a.repeatWm = false) :
    planOf a = Except.ok
      [a.position.getD
        (a.canvasW - effTextW a - 20, a.canvasH - effTextH a - 20)] ∧
    usesRotatedStamp a = false := by
  constructor
  · simp [planOf, h]
  · simp [usesRotatedStamp, h]

/-- C3, witness: with no explicit position, a 1024×768 canvas and a 100×30
stamp (a loadable font, so the measured size is the stamp size), the default
anchor is `(904, 718)`. -/
theorem single_mode_anchor_witness :
    planOf ⟨1024, 768, 100, 30, none, 1, 36, false, 100, 0, (255, 255, 255),
        none, fun _ => true, fun _ => 0, 0, 0, fun _ => none⟩
      = Except.ok [((904 : ℤ), (718 : ℤ))] ∧
    usesRotatedStamp ⟨1024, 768, 100, 30, none, 1, 36, false, 100, 0,
        (255, 255, 255), none, fun _ => true, fun _ => 0, 0, 0, fun _ => none⟩
      = false := by
  have h := single_mode_anchor ⟨1024, 768, 100, 30, none, 1, 36, false, 100, 0,
    (255, 255, 255), none, fun _ => true, fun _ => 0, 0, 0, fun _ => none⟩ rfl
  refine ⟨?_, h.2⟩
  rw [h.1]
  rfl

/-! ### C4: the scale resolver -/

/-- C4: for a positive image, a supplied nonnegative scale percentage `P`
yields `floor(min(w, h) * P / 100)` and overrides any absolute size also
supplied; with no percentage the absolute size is used; with neither, the
CLI's documented default of 36 px. -/
theorem scale_resolver_spec (absSupplied : Option ℤ) (sz w h : ℤ) (P : ℚ)
    (hw : 0 < w) (hh : 0 < h) (hP : 0 ≤ P) :
    resolveFontSize (some P) (cliFontSize absSupplied) w h
        = ⌊(min w h : ℚ) * P / 100⌋ ∧
    resolveFontSize none (cliFontSize (some sz)) w h = sz ∧
    resolveFontSize none (cliFontSize none) w h = 36 := by
  refine ⟨?_, rfl, rfl⟩
  have hmin : (0 : ℚ) ≤ (min w h : ℚ) := by
    have : (0 : ℤ) ≤ min w h := le_min hw.le hh.le
    exact_mod_cast this
  exact pyInt_eq_floor _ (div_nonneg (mul_nonneg hmin hP) (by norm_num))

/-- C4, witness: on a 1024×768 image, scale 5% gives
`floor(768 * 5 / 100) = 38` and wins over a supplied absolute size of 100;
an absolute size 50 alone is returned as is; neither gives 36. -/
theorem scale_resolver_spec_witness :
    (0 : ℤ) < 1024 ∧ (0 : ℤ) < 768 ∧ (0 : ℚ) ≤ 5 ∧
    (resolveFontSize (some 5) (cliFontSize (some 100)) 1024 768
        = ⌊(min (1024 : ℤ) 768 : ℚ) * 5 / 100⌋ ∧
      resolveFontSize none (cliFontSize (some 50)) 1024 768 = 50 ∧
      resolveFontSize none (cliFontSize none) 1024 768 = 36) :=
  ⟨by norm_num, by norm_num, by norm_num,
   scale_resolver_spec (some 100) 50 1024 768 5 (by norm_num) (by norm_num)
     (by norm_num)⟩

/-! ### Alpha-channel invariants for a fully transparent watermark -/

theorem blendCov_alpha_zero (fc : RGB) (k : ℕ) (d : Pixel) (hd : d.a = 0) :
    (blendCov fc 0 k d).a = 0 := by
  simp [blendCov, hd]

theorem blendMask_alpha_zero (s d : Pixel) (hs : s.a = 0) (hd : d.a = 0) :
    (blendMask s d).a = 0 := by
  simp [blendMask, hs, hd]

theorem drawText_alpha_zero (base : Img) (cov : ℤ × ℤ → ℕ) (pos : ℤ × ℤ)
    (fc : RGB) (hb : ∀ c, (base c).a = 0) (c : ℤ × ℤ) :
    (drawText base cov pos fc 0 c).a = 0 :=
  blendCov_alpha_zero fc _ _ (hb c)

theorem pasteMask_alpha_zero (base stamp : Img) (sw sh : ℤ) (pos : ℤ × ℤ)
    (hb : ∀ c, (base c).a = 0) (hs : ∀ c, (stamp c).a = 0) (c : ℤ × ℤ) :
    (pasteMask base stamp sw sh pos c).a = 0 := by
  rw [pasteMask]
  split
  · exact blendMask_alpha_zero _ _ (hs _) (hb c)
  · exact hb c

theorem rotateImage_alpha_zero (img : Img) (sample : ℤ × ℤ → Option (ℤ × ℤ))
    (hi : ∀ c, (img c).a = 0) (c : ℤ × ℤ) :
    (rotateImage img sample c).a = 0 := by
  rw [rotateImage]
  cases sample c with
  | some q => exact hi q
  | none => rfl

theorem foldl_paste_alpha_zero (stamp : Img) (sw sh : ℤ)
    (hs : ∀ c, (stamp c).a = 0) (plan : List (ℤ × ℤ)) :
    ∀ (base : Img), (∀ c, (base c).a = 0) → ∀ c,
      ((plan.foldl (fun ov p => pasteMask ov stamp sw sh p) base) c).a = 0 := by
  induction plan with
  | nil => intro base hb c; exact hb c
  | cons p t ih =>
    intro base hb c
    exact ih _ (fun c' => pasteMask_alpha_zero base stamp sw sh p hb hs c') c

theorem foldl_draw_alpha_zero (cov : ℤ × ℤ → ℕ) (fc : RGB)
    (plan : List (ℤ × ℤ)) :
    ∀ (base : Img), (∀ c, (base c).a = 0) → ∀ c,
      ((plan.foldl (fun ov p => drawText ov cov p fc 0) base) c).a = 0 := by
  induction plan with
  | nil => intro base hb c; exact hb c
  | cons p t ih =>
    intro base hb c
    exact ih _ (fun c' => drawText_alpha_zero base cov p fc hb c') c

theorem textAlpha_of_opacity_zero (a : WatermarkArgs) (h : a.opacity = 0) :
    textAlpha a = 0 := by
  rw [textAlpha, h]
  norm_num [pyInt]

theorem tempImg_alpha_zero (a : WatermarkArgs) (h0 : textAlpha a = 0)
    (c : ℤ × ℤ) : (tempImg a c).a = 0 := by
  rw [tempImg, h0]
  exact drawText_alpha_zero _ a.cov _ a.font_color (fun _ => rfl) c

theorem txtImgPre_alpha_zero (a : WatermarkArgs) (h0 : textAlpha a = 0)
    (c : ℤ × ℤ) : (txtImgPre a c).a = 0 := by
  rw [txtImgPre]
  have hd0 : ∀ c', ((drawText (fun _ => ⟨255, 255, 255, 0⟩) a.cov
      (rotPad a, rotPad a) a.font_color (textAlpha a)) c').a = 0 := by
    intro c'
    rw [h0]
    exact drawText_alpha_zero _ a.cov _ a.font_color (fun _ => rfl) c'
  split
  · exact pasteMask_alpha_zero _ _ _ _ _ hd0 (tempImg_alpha_zero a h0) c
  · exact hd0 c

theorem txtImg_alpha_zero (a : WatermarkArgs) (h0 : textAlpha a = 0)
    (c : ℤ × ℤ) : (txtImg a c).a = 0 :=
  rotateImage_alpha_zero _ _ (txtImgPre_alpha_zero a h0) c

theorem renderOverlay_alpha_zero (a : WatermarkArgs) (h0 : textAlpha a = 0)
    (plan : List (ℤ × ℤ)) (c : ℤ × ℤ) : ((renderOverlay a plan) c).a = 0 := by
  rw [renderOverlay]
  have hinit : ∀ c', ((overlayInit : Img) c').a = 0 := fun _ => rfl
  split
  · exact foldl_paste_alpha_zero _ _ _ (txtImg_alpha_zero a h0) plan _ hinit c
  · split
    · exact foldl_paste_alpha_zero _ _ _ (tempImg_alpha_zero a h0) plan _ hinit c
    · rw [h0]
      exact foldl_draw_alpha_zero a.cov a.font_color plan _ hinit c

/-- Alpha-compositing a fully transparent source pixel over an opaque
destination pixel returns the destination's RGB exactly. -/
theorem overPixel_transparent_src (src d : Pixel) (h : src.a = 0)
    (hd : d.a = 255) : toRGB (overPixel src d) = (d.r, d.g, d.b) := by
  rw [overPixel, toRGB, h, hd]
  norm_num
  omega

/-! ### C5: a fully transparent watermark is the identity -/

/-- C5: with `opacity = 0` every drawing color has alpha `int(255·0) = 0`,
the overlay stays fully transparent through every branch (direct draw,
default-font paste, rotated-stamp paste), and compositing it returns the
input RGB buffer pixel for pixel — for every canvas, every configuration
and every placement plan. -/
theorem opacity_zero_identity (cw ch tw th : ℤ) (pos : Option (ℤ × ℤ))
    (fs : ℤ) (rep : Bool) (sp ang : ℤ) (fc : RGB) (sf : Option ℚ)
    (fl : String → Bool) (cov : ℤ × ℤ → ℕ) (rw' rh' : ℤ)
    (rs : ℤ × ℤ → Option (ℤ × ℤ)) (plan : List (ℤ × ℤ)) (cv : RGBImage)
    (c : ℤ × ℤ) :
    finalImage ⟨cw, ch, tw, th, pos, 0, fs, rep, sp, ang, fc, sf, fl, cov,
      rw', rh', rs⟩ plan cv c = cv c := by
  have h0 : textAlpha ⟨cw, ch, tw, th, pos, 0, fs, rep, sp, ang, fc, sf, fl,
      cov, rw', rh', rs⟩ = 0 := textAlpha_of_opacity_zero _ rfl
  rw [finalImage, compositeRGB,
    overPixel_transparent_src _ _ (renderOverlay_alpha_zero _ h0 plan c) rfl]
  rfl

/-! ### C6: clipping at canvas bounds -/

theorem blendCov_cov_zero (fc : RGB) (a0 : ℕ) (d : Pixel) :
    blendCov fc a0 0 d = d := by
  cases d with
  | mk r g b a =>
    simp only [blendCov, Pixel.mk.injEq]
    refine ⟨?_, ?_, ?_, ?_⟩ <;> omega

/-- C6: compositing is total for every anchor position; a pixel of the
canvas rectangle outside the stamp's footprint is untouched by that paste
or draw, and in particular an anchor placing the stamp entirely outside the
canvas leaves every canvas pixel unchanged — for both the paste path and the
direct-draw path (whose glyph coverage vanishes outside the text box). -/
theorem composite_clipping (cw ch sw sh : ℤ) (pos : ℤ × ℤ)
    (base stamp : Img) (cov : ℤ × ℤ → ℕ) (fc : RGB) (a0 : ℕ) (c : ℤ × ℤ)
    (hcov : ∀ q : ℤ × ℤ, q.1 < 0 ∨ sw ≤ q.1 ∨ q.2 < 0 ∨ sh ≤ q.2 → cov q = 0)
    (hout : pos.1 + sw ≤ 0 ∨ cw ≤ pos.1 ∨ pos.2 + sh ≤ 0 ∨ ch ≤ pos.2)
    (hc1 : 0 ≤ c.1) (hc2 : c.1 < cw) (hc3 : 0 ≤ c.2) (hc4 : c.2 < ch) :
    pasteMask base stamp sw sh pos c = base c ∧
    drawText base cov pos fc a0 c = base c := by
  constructor
  · rw [pasteMask,
      if_neg (by omega :
        ¬(pos.1 ≤ c.1 ∧ c.1 < pos.1 + sw ∧ pos.2 ≤ c.2 ∧ c.2 < pos.2 + sh))]
  · rw [drawText,
      hcov (c.1 - pos.1, c.2 - pos.2)
        (by
          show c.1 - pos.1 < 0 ∨ sw ≤ c.1 - pos.1 ∨ c.2 - pos.2 < 0 ∨
            sh ≤ c.2 - pos.2
          omega),
      blendCov_cov_zero]

/-- C6, witness: a 3×3 stamp anchored at `(20, 20)` lies entirely outside a
10×10 canvas; the pixel `(5, 5)` keeps its original value on both paths. -/
theorem composite_clipping_witness :
    pasteMask (fun _ => ⟨1, 2, 3, 255⟩) (fun _ => ⟨9, 9, 9, 9⟩) 3 3 (20, 20)
      (5, 5) = ⟨1, 2, 3, 255⟩ ∧
    drawText (fun _ => ⟨1, 2, 3, 255⟩) (fun _ => 0) (20, 20) (5, 6, 7) 200
      (5, 5) = ⟨1, 2, 3, 255⟩ :=
  composite_clipping 10 10 3 3 (20, 20) (fun _ => ⟨1, 2, 3, 255⟩)
    (fun _ => ⟨9, 9, 9, 9⟩) (fun _ => 0) (5, 6, 7) 200 (5, 5)
    (fun _ _ => rfl) (by decide) (by decide) (by decide) (by decide) (by decide)

/-! ### C7: the default-font manual upscale -/

/-- C7: on the built-in-font path with requested size 80 (native cap 40) and
a fully covered 10×10 native text box, the code builds the enlarged 20×20
buffer (`tempDims`) but draws the native-size text at `(0, 0)` WITHOUT
resizing (its own comment says "creating a larger canvas and resizing"), so
pixel `(15, 5)` — inside the upscaled glyph box the spec promises, whose
coverage `specUpscaledAlpha` would be 255 — is fully transparent in the
stamp actually produced. -/
theorem default_font_upscale_missing :
    tempDims defaultScaledCall = (20, 20) ∧
    (tempImg defaultScaledCall (15, 5)).a = 0 ∧
    specUpscaledAlpha fullCov10 ((80 : ℚ) / 40) (15, 5) = 255 := by
  refine ⟨?_, ?_, ?_⟩
  · norm_num [tempDims, defScale, resolvedFontSize, resolveFontSize,
      defaultScaledCall, pyInt]
  · norm_num [tempImg, drawText, blendCov, textAlpha, pyInt, fullCov10,
      defaultScaledCall]
  · norm_num [specUpscaledAlpha, fullCov10, pyInt]

/-! ### C8: font fallback is never fatal -/

theorem effFontSize_nonneg (a : WatermarkArgs) (h : 0 ≤ resolvedFontSize a) :
    0 ≤ effFontSize a := by
  rw [effFontSize]
  split
  · norm_num
  · exact h

theorem usedSpacing_nonneg (a : WatermarkArgs) (hsp : 0 ≤ a.spacing)
    (hfs : 0 ≤ resolvedFontSize a) : 0 ≤ usedSpacing a := by
  rw [usedSpacing, adjSpacing]
  split
  · refine pyInt_nonneg _ (mul_nonneg (by exact_mod_cast hsp)
      (div_nonneg ?_ (by norm_num)))
    exact_mod_cast effFontSize_nonneg a hfs
  · exact hsp

/-- `defaultScaled a = true` forces `40 < resolvedFontSize a`. -/
theorem defaultScaled_lt (a : WatermarkArgs) (h : defaultScaled a = true) :
    40 < resolvedFontSize a := by
  rw [defaultScaled, Bool.and_eq_true, decide_eq_true_eq] at h
  exact h.2

/-- With the upscale path active, `scale_ratio = fs / 40 ≥ 1`. -/
theorem one_le_defScale (a : WatermarkArgs) (hds : defaultScaled a = true) :
    (1 : ℚ) ≤ defScale a := by
  rw [defScale, one_le_div (by norm_num : (0 : ℚ) < 40)]
  exact_mod_cast (defaultScaled_lt a hds).le

theorem effTextW_pos (a : WatermarkArgs) (h : 0 < a.text_width) :
    0 < effTextW a := by
  rw [effTextW]
  split
  · rename_i hds
    have hr := one_le_defScale a hds
    show 0 < pyInt ((a.text_width : ℚ) * defScale a)
    calc (0 : ℤ) < a.text_width := h
      _ ≤ pyInt ((a.text_width : ℚ) * defScale a) :=
        le_pyInt _ _
          (mul_nonneg (by exact_mod_cast h.le) (le_trans zero_le_one hr))
          (le_mul_of_one_le_right (by exact_mod_cast h.le) hr)
  · exact h

theorem effTextH_pos (a : WatermarkArgs) (h : 0 < a.text_height) :
    0 < effTextH a := by
  rw [effTextH]
  split
  · rename_i hds
    have hr := one_le_defScale a hds
    show 0 < pyInt ((a.text_height : ℚ) * defScale a)
    calc (0 : ℤ) < a.text_height := h
      _ ≤ pyInt ((a.text_height : ℚ) * defScale a) :=
        le_pyInt _ _
          (mul_nonneg (by exact_mod_cast h.le) (le_trans zero_le_one hr))
          (le_mul_of_one_le_right (by exact_mod_cast h.le) hr)
  · exact h

/-- Under positive geometry and nonnegative spacing, every branch of the
planner succeeds. -/
theorem planOf_isOk (a : WatermarkArgs) (htw : 0 < a.text_width)
    (hth : 0 < a.text_height) (hrw : 0 < a.rotW) (hrh : 0 < a.rotH)
    (hsp : 0 ≤ a.spacing) (hfs : 0 ≤ resolvedFontSize a) :
    ∃ L, planOf a = Except.ok L := by
  have hsp' := usedSpacing_nonneg a hsp hfs
  rw [planOf]
  split
  · split
    · exact ⟨_, planRepeatRot_eq _ _ _ _ _ (by omega) (by omega)⟩
    · have hW := effTextW_pos a htw
      have hH := effTextH_pos a hth
      exact ⟨_, planRepeat0_eq _ _ _ _ _ (by omega) (by omega)⟩
  · exact ⟨_, rfl⟩

/-- C8: when no candidate font file loads, the renderer falls back to the
built-in face instead of failing, and the watermark call still succeeds
(under positive geometry and nonnegative spacing, i.e. whenever nothing
unrelated to fonts is wrong). -/
theorem font_fallback_never_fatal (a : WatermarkArgs) (cv : RGBImage)
    (hfonts : ∀ n ∈ font_options, a.fontLoads n = false)
    (htw : 0 < a.text_width) (hth : 0 < a.text_height)
    (hrw : 0 < a.rotW) (hrh : 0 < a.rotH)
    (hsp : 0 ≤ a.spacing) (hfs : 0 ≤ resolvedFontSize a) :
    loadFont a.fontLoads (resolvedFontSize a) = FontChoice.builtinDefault ∧
    (add_watermark a cv).1 = true := by
  constructor
  · rw [loadFont]
    have hnone : font_options.find? a.fontLoads = none := by
      rw [List.find?_eq_none]
      intro x hx
      simp [hfonts x hx]
    rw [hnone]
  · obtain ⟨L, hL⟩ := planOf_isOk a htw hth hrw hrh hsp hfs
    rw [add_watermark, hL]

/-- C8, witness: a repeat-mode call at 45° with every font trial failing
still reports success. -/
theorem font_fallback_never_fatal_witness :
    loadFont (fun _ => false)
      (resolvedFontSize ⟨20, 20, 10, 10, none, 1, 36, true, 5, 45,
        (255, 255, 255), none, fun _ => false, fun _ => 0, 7, 7,
        fun _ => none⟩) = FontChoice.builtinDefault ∧
    (add_watermark ⟨20, 20, 10, 10, none, 1, 36, true, 5, 45, (255, 255, 255),
        none, fun _ => false, fun _ => 0, 7, 7, fun _ => none⟩
      (fun _ => (0, 0, 0))).1 = true :=
  font_fallback_never_fatal ⟨20, 20, 10, 10, none, 1, 36, true, 5, 45,
      (255, 255, 255), none, fun _ => false, fun _ => 0, 7, 7, fun _ => none⟩
    (fun _ => (0, 0, 0)) (fun _ _ => rfl) (by decide) (by decide) (by decide)
    (by decide) (by decide) (by decide)

/-! ### C9: a single failure outcome, no partial output -/

/-- C9: every call returns either success with an output image or failure
with no output image at all — exceptions do not escape and no partial result
exists.  In particular the degenerate geometry the spec flags (spacing
`-stampH`, giving a zero tiling step and a `ValueError` from `range`) yields
exactly the failure outcome `(false, none)`. -/
theorem watermark_single_outcome :
    (∀ (a : WatermarkArgs) (cv : RGBImage),
      (∃ img, add_watermark a cv = (true, some img)) ∨
        add_watermark a cv = (false, none)) ∧
    add_watermark ⟨2, 2, 1, 1, none, 1, 36, true, -1, 0, (255, 255, 255),
        none, fun _ => true, fun _ => 0, 1, 1, fun _ => none⟩
      (fun _ => (0, 0, 0)) = (false, none) := by
  constructor
  · intro a cv
    cases h : planOf a with
    | ok L => exact Or.inl ⟨finalImage a L cv, by rw [add_watermark, h]⟩
    | error e => exact Or.inr (by rw [add_watermark, h])
  · rfl

/-! ### C10: spacing rescaling in repeat mode with a scale factor -/

/-- C10: with `repeat = true` and a scale factor supplied, the spacing used
for tiling is `int(spacing * font_size / 40)` (where `font_size` is the
resolved size in effect at line 228, i.e. after the default-font 40px
clamp); with `repeat = false` or no scale factor it is the supplied spacing
unchanged — and `usedSpacing` is exactly what the planner receives. -/
theorem spacing_adjustment (sp fs : ℤ) (P : ℚ) (sf : Option ℚ)
    (a : WatermarkArgs) :
    adjSpacing true (some P) sp fs = pyInt ((sp : ℚ) * (fs : ℚ) / 40) ∧
    adjSpacing false sf sp fs = sp ∧
    adjSpacing true none sp fs = sp ∧
    usedSpacing a = adjSpacing a.repeatWm a.scale_factor a.spacing
      (effFontSize a) := by
  refine ⟨?_, ?_, rfl, rfl⟩
  · rw [adjSpacing]
    norm_num
    congr 1
    ring
  · rw [adjSpacing]
    norm_num

end ImageWorkflow
